import Mathlib

/-!
Verification of the carf repository's Rust sources against its specification.

The file shallowly embeds the code under `src/src-tauri/src`:
* `error.rs` — the `FridaError` taxonomy, the `ErrorResponse` conversion and
  `validate_no_nul`;
* `commands/library.rs` — the library persistence commands, with the
  filesystem made explicit as a state record;
* the instrumentation session service (`frida_service.rs` is not shipped in
  `src/`, so it is modelled from the specification, as marked on each
  definition).
-/

/-- Structured error type mirroring `FridaError` in `src/src-tauri/src/error.rs`.
Fifteen variants; payloads follow the Rust field types (`String`, `u32`, `u64`),
with the machine integers embedded as `Nat`. -/
inductive FridaError where
  | DeviceNotFound (device : String)
  | ProcessNotFound (pid : Nat)
  | SessionNotFound (session : Nat)
  | ScriptNotFound (script : Nat)
  | AttachFailed (detail : String)
  | DetachFailed (detail : String)
  | ScriptLoadFailed (detail : String)
  | ScriptUnloadFailed (detail : String)
  | SpawnFailed (detail : String)
  | ResumeFailed (detail : String)
  | KillFailed (detail : String)
  | RpcFailed (detail : String)
  | InvalidInput (detail : String)
  | Timeout
  | Internal (detail : String)
deriving DecidableEq

/-- Display text of each variant, mirroring the `#[error("...")]` format
strings that `thiserror` derives into `Display` (hence into `err.to_string()`). -/
def FridaError.display : FridaError → String
  | .DeviceNotFound d => "Device not found: " ++ d
  | .ProcessNotFound p => "Process not found: " ++ toString p
  | .SessionNotFound s => "Session not found: " ++ toString s
  | .ScriptNotFound s => "Script not found: " ++ toString s
  | .AttachFailed m => "Attach failed: " ++ m
  | .DetachFailed m => "Detach failed: " ++ m
  | .ScriptLoadFailed m => "Script load failed: " ++ m
  | .ScriptUnloadFailed m => "Script unload failed: " ++ m
  | .SpawnFailed m => "Spawn failed: " ++ m
  | .ResumeFailed m => "Resume failed: " ++ m
  | .KillFailed m => "Kill failed: " ++ m
  | .RpcFailed m => "RPC call failed: " ++ m
  | .InvalidInput m => "Invalid input: " ++ m
  | .Timeout => "Operation timed out"
  | .Internal m => "Internal error: " ++ m

/-- The `let code = match &err` table inside `impl From<FridaError> for
ErrorResponse` in `error.rs`. -/
def FridaError.errorCode : FridaError → String
  | .DeviceNotFound _ => "DEVICE_NOT_FOUND"
  | .ProcessNotFound _ => "PROCESS_NOT_FOUND"
  | .SessionNotFound _ => "SESSION_NOT_FOUND"
  | .ScriptNotFound _ => "SCRIPT_NOT_FOUND"
  | .AttachFailed _ => "ATTACH_FAILED"
  | .DetachFailed _ => "DETACH_FAILED"
  | .ScriptLoadFailed _ => "SCRIPT_LOAD_FAILED"
  | .ScriptUnloadFailed _ => "SCRIPT_UNLOAD_FAILED"
  | .SpawnFailed _ => "SPAWN_FAILED"
  | .ResumeFailed _ => "RESUME_FAILED"
  | .KillFailed _ => "KILL_FAILED"
  | .RpcFailed _ => "RPC_FAILED"
  | .InvalidInput _ => "INVALID_INPUT"
  | .Timeout => "TIMEOUT"
  | .Internal _ => "INTERNAL_ERROR"

/-- Position of a variant in the declaration order of `FridaError`; used to
express that distinct variants receive distinct code strings. -/
def FridaError.variantIdx : FridaError → Nat
  | .DeviceNotFound _ => 0
  | .ProcessNotFound _ => 1
  | .SessionNotFound _ => 2
  | .ScriptNotFound _ => 3
  | .AttachFailed _ => 4
  | .DetachFailed _ => 5
  | .ScriptLoadFailed _ => 6
  | .ScriptUnloadFailed _ => 7
  | .SpawnFailed _ => 8
  | .ResumeFailed _ => 9
  | .KillFailed _ => 10
  | .RpcFailed _ => 11
  | .InvalidInput _ => 12
  | .Timeout => 13
  | .Internal _ => 14

/-- The fifteen code strings in the declaration order of the variants. -/
def codeTable : List String :=
  ["DEVICE_NOT_FOUND", "PROCESS_NOT_FOUND", "SESSION_NOT_FOUND",
   "SCRIPT_NOT_FOUND", "ATTACH_FAILED", "DETACH_FAILED", "SCRIPT_LOAD_FAILED",
   "SCRIPT_UNLOAD_FAILED", "SPAWN_FAILED", "RESUME_FAILED", "KILL_FAILED",
   "RPC_FAILED", "INVALID_INPUT", "TIMEOUT", "INTERNAL_ERROR"]

/-- `ErrorResponse` from `error.rs`: the serializable `\x7bcode, message,
details?\x7d` pair sent to the frontend. -/
structure ErrorResponse where
  code : String
  message : String
  details : Option String
deriving DecidableEq

/-- `impl From<FridaError> for ErrorResponse`: code from the match table,
message from `err.to_string()` (the `Display` text), details `None`. -/
def ErrorResponse.ofFridaError (err : FridaError) : ErrorResponse :=
  { code := err.errorCode, message := err.display, details := none }

/-- `validate_no_nul` from `error.rs`: rejects a value containing an embedded
NUL byte with `InvalidInput`, accepts it otherwise. -/
def validate_no_nul (field value : String) : Except FridaError Unit :=
  if value.data.contains (Char.ofNat 0) then
    Except.error (FridaError.InvalidInput (field ++ " cannot contain NUL bytes"))
  else
    Except.ok ()

/-- Observer: did a validation result land in the `InvalidInput` error? -/
def isInvalidInput : Except FridaError Unit → Bool
  | .error (.InvalidInput _) => true
  | _ => false

/-- Filesystem-and-globals state for `commands/library.rs`: the `APP_DATA_DIR`
once-cell, the set of directories known to exist, and the file contents keyed
by path. -/
structure LibFS where
  appDataDir : Option String
  dirs : List String
  files : List (String × String)
deriving DecidableEq

/-- First-match lookup of a path in the file map. -/
def fsLookup : List (String × String) → String → Option String
  | [], _ => none
  | (k, v) :: rest, p => if k = p then some v else fsLookup rest p

/-- `fs::create_dir_all`: ensures the directory exists. -/
def createDirAll (d : String) (dirs : List String) : List String :=
  if d ∈ dirs then dirs else d :: dirs

/-- `fs::write`: creates or overwrites the file at `p` with `data`. -/
def fsWrite (files : List (String × String)) (p data : String) :
    List (String × String) :=
  (p, data) :: files

/-- The literal JSON document `load_library` returns when the file is absent. -/
def emptyLibraryJson : String :=
  "\x7b\"entries\":\x7b\x7d,\"folders\":\x7b\x7d\x7d"

/-- `get_library_path` from `library.rs`: fails if `APP_DATA_DIR` was never
set, otherwise ensures the directory exists and returns
`app_data_dir.join("library.json")`. -/
def get_library_path (fs : LibFS) : Except String String × LibFS :=
  match fs.appDataDir with
  | none => (Except.error "Library storage not initialized", fs)
  | some d =>
      (Except.ok (d ++ "/library.json"),
       { fs with dirs := createDirAll d fs.dirs })

/-- `load_library` from `library.rs`: resolves the path; if the file does not
exist returns the empty library document, otherwise reads the file. -/
def load_library (fs : LibFS) : Except String String × LibFS :=
  match get_library_path fs with
  | (Except.error e, fs') => (Except.error e, fs')
  | (Except.ok path, fs') =>
      match fsLookup fs'.files path with
      | none => (Except.ok emptyLibraryJson, fs')
      | some contents => (Except.ok contents, fs')

/-- `save_library` from `library.rs`: resolves the path and writes `data`. -/
def save_library (data : String) (fs : LibFS) : Except String Unit × LibFS :=
  match get_library_path fs with
  | (Except.error e, fs') => (Except.error e, fs')
  | (Except.ok path, fs') =>
      (Except.ok (), { fs' with files := fsWrite fs'.files path data })

/-- `get_library_file_path` from `library.rs`: returns the resolved path. -/
def get_library_file_path (fs : LibFS) : Except String String × LibFS :=
  match get_library_path fs with
  | (Except.error e, fs') => (Except.error e, fs')
  | (Except.ok path, fs') => (Except.ok path, fs')

/-- Modelled from the spec: lifecycle states a session can occupy while
present in the Session Table (`frida_service.rs` is not shipped under `src/`;
section 4.3 of the specification lists `Attaching`, `Attached`,
`ScriptLoaded`, `Detaching`, `Detached(removed)`, of which only `Attached`
and `ScriptLoaded` are observable between serialized operations — the
transient states exist only inside a single locked operation). -/
inductive SessionState where
  | Attached
  | ScriptLoaded
deriving DecidableEq

/-- Modelled from the spec: a Script entry — service-assigned numeric id plus
its source text (section 3 of the specification). -/
structure Script where
  scriptId : Nat
  source : String
deriving DecidableEq

/-- Modelled from the spec: a Session Table entry — owning device id, target
pid, lifecycle state, and at most one attached Script (section 3). -/
structure Session where
  deviceId : String
  pid : Nat
  state : SessionState
  script : Option Script
deriving DecidableEq

/-- Modelled from the spec: the session-management service state owned by the
Worker Facade — the visible devices with their running pids, the Session
Table, and the monotonically increasing id counters of section 9
(`frida_service.rs` is not under `src/`). -/
structure Service where
  devices : List (String × List Nat)
  sessions : List (Nat × Session)
  nextSessionId : Nat
  nextScriptId : Nat
deriving DecidableEq

/-- First-match lookup of a device id in the device list. -/
def lookupDevice : List (String × List Nat) → String → Option (List Nat)
  | [], _ => none
  | (k, v) :: rest, i => if k = i then some v else lookupDevice rest i

/-- First-match lookup of a session id in the Session Table. -/
def lookupSession : List (Nat × Session) → Nat → Option Session
  | [], _ => none
  | (k, v) :: rest, i => if k = i then some v else lookupSession rest i

/-- Update the entry with the given session id (first match) in place. -/
def updateSession : List (Nat × Session) → Nat → (Session → Session) →
    List (Nat × Session)
  | [], _, _ => []
  | (k, v) :: rest, i, f =>
      if k = i then (k, f v) :: rest else (k, v) :: updateSession rest i f

/-- Remove the entry with the given session id from the Session Table. -/
def removeSession : List (Nat × Session) → Nat → List (Nat × Session)
  | [], _ => []
  | (k, v) :: rest, i =>
      if k = i then removeSession rest i else (k, v) :: removeSession rest i

/-- Modelled from the spec: `attach(device_id, pid) -> session_id` (section
4.3) — resolves the device (`DeviceNotFound`), checks the pid
(`ProcessNotFound`), then allocates a fresh session id from the monotone
counter and inserts the entry in state `Attached`; no partial entry is left
on failure. The native attach itself is treated as succeeding, since the
claims under verification concern the table discipline, not native faults. -/
def Service.attach (s : Service) (deviceId : String) (pid : Nat) :
    Except FridaError Nat × Service :=
  match lookupDevice s.devices deviceId with
  | none => (Except.error (FridaError.DeviceNotFound deviceId), s)
  | some pids =>
      if pid ∈ pids then
        (Except.ok s.nextSessionId,
         { s with
             sessions := (s.nextSessionId,
               ⟨deviceId, pid, SessionState.Attached, none⟩) :: s.sessions,
             nextSessionId := s.nextSessionId + 1 })
      else (Except.error (FridaError.ProcessNotFound pid), s)

/-- Modelled from the spec: `detach(session_id)` (section 4.3) — fails with
`SessionNotFound` if the id is unknown, otherwise unloads any live script
(best effort), releases the handle and removes the table entry. -/
def Service.detach (s : Service) (sid : Nat) :
    Except FridaError Unit × Service :=
  match lookupSession s.sessions sid with
  | none => (Except.error (FridaError.SessionNotFound sid), s)
  | some _ => (Except.ok (), { s with sessions := removeSession s.sessions sid })

/-- Modelled from the spec: `load_script(session_id, source) -> script_id`
(section 4.4) — requires the session to be present (hence in `Attached` or
`ScriptLoaded`); replace semantics: any existing script is dropped and a
fresh script id is assigned from the monotone counter; the session moves to
`ScriptLoaded`. -/
def Service.load_script (s : Service) (sid : Nat) (source : String) :
    Except FridaError Nat × Service :=
  match lookupSession s.sessions sid with
  | none => (Except.error (FridaError.SessionNotFound sid), s)
  | some _ =>
      (Except.ok s.nextScriptId,
       { s with
           sessions := updateSession s.sessions sid
             (fun sess => { sess with
                 state := SessionState.ScriptLoaded,
                 script := some ⟨s.nextScriptId, source⟩ }),
           nextScriptId := s.nextScriptId + 1 })

/-- Modelled from the spec: `unload_script(session_id)` (section 4.4) — fails
with `SessionNotFound` if the session is unknown; silently succeeds as a
no-op if the session has no script; otherwise removes the script and reverts
the session to `Attached`. -/
def Service.unload_script (s : Service) (sid : Nat) :
    Except FridaError Unit × Service :=
  match lookupSession s.sessions sid with
  | none => (Except.error (FridaError.SessionNotFound sid), s)
  | some sess =>
      match sess.script with
      | none => (Except.ok (), s)
      | some _ =>
          (Except.ok (),
           { s with
               sessions := updateSession s.sessions sid
                 (fun x => { x with
                     state := SessionState.Attached, script := none }) })

/-- Modelled from the spec: `post_message(session_id, payload)` (section 4.5)
— `SessionNotFound` if the session is unknown, `ScriptNotFound` if it has no
loaded script; otherwise the payload is forwarded to the script's channel
(fire and forget, no table mutation). -/
def Service.post_message (s : Service) (sid : Nat) (payload : String) :
    Except FridaError Unit × Service :=
  match lookupSession s.sessions sid with
  | none => (Except.error (FridaError.SessionNotFound sid), s)
  | some sess =>
      match sess.script with
      | none => (Except.error (FridaError.ScriptNotFound sid), s)
      | some _ => (Except.ok (), s)

/-- A mutating command against the service, for reasoning over traces. -/
inductive Op where
  | attach (deviceId : String) (pid : Nat)
  | detach (sid : Nat)
  | load (sid : Nat) (source : String)
  | unload (sid : Nat)
  | post (sid : Nat) (payload : String)

/-- State after one command (results discarded). -/
def Service.step (s : Service) : Op → Service
  | .attach d p => (s.attach d p).2
  | .detach i => (s.detach i).2
  | .load i src => (s.load_script i src).2
  | .unload i => (s.unload_script i).2
  | .post i m => (s.post_message i m).2

/-- State after a sequence of commands. -/
def Service.run (s : Service) : List Op → Service
  | [] => s
  | op :: ops => (s.step op).run ops

/-- A concrete service with one device hosting one pid; counters start at 1,
matching the specification's example trace. -/
def svcExample : Service := ⟨[("local", [1234])], [], 1, 1⟩

/-- The example service right after a successful `attach("local", 1234)`. -/
def svcAttached : Service := (svcExample.attach "local" 1234).2

/-- C6: `validate_no_nul field value` returns `InvalidInput` exactly when
`value` contains an embedded NUL character, and returns `Ok(())` otherwise. -/
theorem c6_validate_no_nul (field value : String) :
    isInvalidInput (validate_no_nul field value) = value.data.contains (Char.ofNat 0)
    ∧ (value.data.contains (Char.ofNat 0) = false →
        validate_no_nul field value = Except.ok ()) := by
  constructor
  · unfold validate_no_nul
    cases h : value.data.contains (Char.ofNat 0) <;> rfl
  · intro h
    unfold validate_no_nul
    rw [h]
    rfl

/-- Witness for C6 at the concrete input `("field", "abc")`. -/
theorem c6_validate_no_nul_witness :
    isInvalidInput (validate_no_nul "field" "abc")
      = List.contains (String.data "abc") (Char.ofNat 0)
    ∧ validate_no_nul "field" "abc" = Except.ok () :=
  ⟨(c6_validate_no_nul "field" "abc").1,
   (c6_validate_no_nul "field" "abc").2 (by decide)⟩

/-- C7: the conversion from `FridaError` to `ErrorResponse` is total, yields
the fixed code of the variant together with the display text and no details,
the codes of the fifteen variants are pairwise distinct, and in particular
`SessionNotFound` maps to the code `"SESSION_NOT_FOUND"`. -/
theorem c7_error_response_conversion :
    (∀ e : FridaError, ErrorResponse.ofFridaError e =
        { code := e.errorCode, message := e.display, details := none })
    ∧ (∀ e : FridaError, e.errorCode = codeTable.getD e.variantIdx "")
    ∧ codeTable.Nodup
    ∧ (FridaError.SessionNotFound 0).errorCode = "SESSION_NOT_FOUND" := by
  refine ⟨fun e => rfl, fun e => ?_, by decide, rfl⟩
  cases e <;> rfl

/-- C8: with storage initialized and no library file on disk, `load_library`
returns the empty library document, whose top-level keys are exactly
`entries` and `folders`, each an empty object. -/
theorem c8_load_library_empty (fs : LibFS) (d : String)
    (hinit : fs.appDataDir = some d)
    (hmiss : fsLookup fs.files (d ++ "/library.json") = none) :
    (load_library fs).1 = Except.ok emptyLibraryJson := by
  unfold load_library get_library_path
  rw [hinit]
  simp only []
  rw [hmiss]

/-- Witness for C8 on a freshly initialized empty filesystem. -/
theorem c8_load_library_empty_witness :
    (load_library ⟨some "/data", [], []⟩).1 = Except.ok emptyLibraryJson :=
  c8_load_library_empty ⟨some "/data", [], []⟩ "/data" rfl rfl

/-- C9: with storage initialized, `save_library data` followed by
`load_library` returns exactly `data`. -/
theorem c9_save_load_roundtrip (fs : LibFS) (d data : String)
    (hinit : fs.appDataDir = some d) :
    (save_library data fs).1 = Except.ok ()
    ∧ (load_library (save_library data fs).2).1 = Except.ok data := by
  unfold save_library load_library get_library_path
  rw [hinit]
  constructor
  · rfl
  · simp [fsWrite, fsLookup]

/-- Witness for C9 at a concrete state and payload. -/
theorem c9_save_load_roundtrip_witness :
    (save_library "payload" ⟨some "/data", [], []⟩).1 = Except.ok ()
    ∧ (load_library (save_library "payload" ⟨some "/data", [], []⟩).2).1
        = Except.ok "payload" :=
  c9_save_load_roundtrip ⟨some "/data", [], []⟩ "/data" "payload" rfl

/-- C10: if `init_library_storage` was never called (`APP_DATA_DIR` unset),
`load_library`, `save_library` and `get_library_file_path` all fail with
"Library storage not initialized" and leave the filesystem state unchanged. -/
theorem c10_storage_unset (fs : LibFS) (hinit : fs.appDataDir = none) :
    load_library fs = (Except.error "Library storage not initialized", fs)
    ∧ (∀ data, save_library data fs
        = (Except.error "Library storage not initialized", fs))
    ∧ get_library_file_path fs
        = (Except.error "Library storage not initialized", fs) := by
  refine ⟨?_, fun data => ?_, ?_⟩
  · unfold load_library get_library_path
    rw [hinit]
  · unfold save_library get_library_path
    rw [hinit]
  · unfold get_library_file_path get_library_path
    rw [hinit]

/-- Witness for C10 on the state with no app data directory. -/
theorem c10_storage_unset_witness :
    load_library ⟨none, [], []⟩
      = (Except.error "Library storage not initialized", ⟨none, [], []⟩)
    ∧ (∀ data, save_library data ⟨none, [], []⟩
        = (Except.error "Library storage not initialized", ⟨none, [], []⟩))
    ∧ get_library_file_path ⟨none, [], []⟩
        = (Except.error "Library storage not initialized", ⟨none, [], []⟩) :=
  c10_storage_unset ⟨none, [], []⟩ rfl

/-- Looking up a key bounded away from every key in the table yields nothing. -/
theorem lookupSession_eq_none (l : List (Nat × Session)) (i : Nat)
    (h : ∀ e ∈ l, e.1 ≠ i) : lookupSession l i = none := by
  induction l with
  | nil => rfl
  | cons e rest ih =>
      obtain ⟨k, v⟩ := e
      have hk : k ≠ i := h (k, v) (List.mem_cons_self _ _)
      simp only [lookupSession]
      rw [if_neg hk]
      exact ih fun e he => h e (List.mem_cons_of_mem _ he)

/-- Removing a key that no entry carries leaves the table unchanged. -/
theorem removeSession_eq_self (l : List (Nat × Session)) (i : Nat)
    (h : ∀ e ∈ l, e.1 ≠ i) : removeSession l i = l := by
  induction l with
  | nil => rfl
  | cons e rest ih =>
      obtain ⟨k, v⟩ := e
      have hk : k ≠ i := h (k, v) (List.mem_cons_self _ _)
      simp only [removeSession]
      rw [if_neg hk, ih fun e he => h e (List.mem_cons_of_mem _ he)]

/-- Looking up the updated key returns the updated entry. -/
theorem lookupSession_updateSession (l : List (Nat × Session)) (i : Nat)
    (f : Session → Session) :
    lookupSession (updateSession l i f) i = (lookupSession l i).map f := by
  induction l with
  | nil => rfl
  | cons e rest ih =>
      obtain ⟨k, v⟩ := e
      by_cases hk : k = i
      · simp [updateSession, lookupSession, hk]
      · simp [updateSession, lookupSession, hk, ih]

/-- Characterization of a successful `attach`: the returned id is the current
counter value and the new state is the insertion plus the bumped counter. -/
theorem attach_ok (s s' : Service) (d : String) (p sid : Nat)
    (h : s.attach d p = (Except.ok sid, s')) :
    sid = s.nextSessionId
    ∧ s' = { s with
        sessions := (sid, ⟨d, p, SessionState.Attached, none⟩) :: s.sessions,
        nextSessionId := sid + 1 } := by
  unfold Service.attach at h
  split at h
  · simp at h
  · split at h
    · simp only [Prod.mk.injEq, Except.ok.injEq] at h
      obtain ⟨h1, h2⟩ := h
      subst h1
      exact ⟨rfl, h2.symm⟩
    · simp at h

/-- One command never decreases the session-id counter. -/
theorem step_nextSessionId_le (s : Service) (op : Op) :
    s.nextSessionId ≤ (s.step op).nextSessionId := by
  cases op with
  | attach d p =>
      simp only [Service.step, Service.attach]
      split
      · exact Nat.le_refl _
      · split
        · exact Nat.le_succ _
        · exact Nat.le_refl _
  | detach i =>
      simp only [Service.step, Service.detach]
      split <;> exact Nat.le_refl _
  | load i src =>
      simp only [Service.step, Service.load_script]
      split <;> exact Nat.le_refl _
  | unload i =>
      simp only [Service.step, Service.unload_script]
      split
      · exact Nat.le_refl _
      · split <;> exact Nat.le_refl _
  | post i m =>
      simp only [Service.step, Service.post_message]
      split
      · exact Nat.le_refl _
      · split <;> exact Nat.le_refl _

/-- A command sequence never decreases the session-id counter. -/
theorem run_nextSessionId_le (s : Service) (ops : List Op) :
    s.nextSessionId ≤ (s.run ops).nextSessionId := by
  induction ops generalizing s with
  | nil => exact Nat.le_refl _
  | cons op rest ih =>
      simp only [Service.run]
      exact Nat.le_trans (step_nextSessionId_le s op) (ih (s.step op))

/-- C1: for a session id absent from the Session Table, `detach`,
`load_script`, `unload_script` and `post_message` all return
`SessionNotFound` and leave the whole service state unchanged. -/
theorem c1_unknown_session (s : Service) (sid : Nat) (src payload : String)
    (h : lookupSession s.sessions sid = none) :
    s.detach sid = (Except.error (FridaError.SessionNotFound sid), s)
    ∧ s.load_script sid src
        = (Except.error (FridaError.SessionNotFound sid), s)
    ∧ s.unload_script sid
        = (Except.error (FridaError.SessionNotFound sid), s)
    ∧ s.post_message sid payload
        = (Except.error (FridaError.SessionNotFound sid), s) := by
  refine ⟨?_, ?_, ?_, ?_⟩ <;>
    simp [Service.detach, Service.load_script, Service.unload_script,
      Service.post_message, h]

/-- Witness for C1: id 7 is not in the example table. -/
theorem c1_unknown_session_witness :
    svcExample.detach 7
      = (Except.error (FridaError.SessionNotFound 7), svcExample)
    ∧ svcExample.load_script 7 "src"
        = (Except.error (FridaError.SessionNotFound 7), svcExample)
    ∧ svcExample.unload_script 7
        = (Except.error (FridaError.SessionNotFound 7), svcExample)
    ∧ svcExample.post_message 7 "msg"
        = (Except.error (FridaError.SessionNotFound 7), svcExample) :=
  c1_unknown_session svcExample 7 "src" "msg" rfl

/-- C2: a successful `attach` followed immediately by `detach` of the
returned id succeeds and restores the Session Table to its pre-attach size,
with no entry left under the new id (given the counter invariant that every
table key is below the next session id). -/
theorem c2_attach_then_detach (s s₁ : Service) (d : String) (p sid : Nat)
    (hwf : ∀ e ∈ s.sessions, e.1 < s.nextSessionId)
    (h : s.attach d p = (Except.ok sid, s₁)) :
    (s₁.detach sid).1 = Except.ok ()
    ∧ (s₁.detach sid).2.sessions.length = s.sessions.length
    ∧ lookupSession (s₁.detach sid).2.sessions sid = none := by
  obtain ⟨hsid, hs₁⟩ := attach_ok s s₁ d p sid h
  subst hsid
  subst hs₁
  have hne : ∀ e ∈ s.sessions, e.1 ≠ s.nextSessionId :=
    fun e he => Nat.ne_of_lt (hwf e he)
  refine ⟨?_, ?_, ?_⟩
  · simp [Service.detach, lookupSession]
  · simp [Service.detach, lookupSession, removeSession,
      removeSession_eq_self _ _ hne]
  · simp [Service.detach, lookupSession, removeSession,
      removeSession_eq_self _ _ hne, lookupSession_eq_none _ _ hne]

/-- Witness for C2 on the example service. -/
theorem c2_attach_then_detach_witness :
    (svcAttached.detach 1).1 = Except.ok ()
    ∧ (svcAttached.detach 1).2.sessions.length = svcExample.sessions.length
    ∧ lookupSession (svcAttached.detach 1).2.sessions 1 = none :=
  c2_attach_then_detach svcExample svcAttached "local" 1234 1
    (by simp [svcExample]) rfl

/-- C3: on a session present in the table (hence in `Attached` or
`ScriptLoaded`), two consecutive `load_script` calls succeed, the two
returned script ids differ, and afterwards the session carries exactly the
one script of the second call. -/
theorem load_script_ok (s : Service) (sid : Nat) (src : String)
    (sess : Session) (h : lookupSession s.sessions sid = some sess) :
    s.load_script sid src
      = (Except.ok s.nextScriptId,
         { s with
             sessions := updateSession s.sessions sid
               (fun x => { x with
                   state := SessionState.ScriptLoaded,
                   script := some ⟨s.nextScriptId, src⟩ }),
             nextScriptId := s.nextScriptId + 1 }) := by
  simp [Service.load_script, h]

/-- C3: on a session present in the table (hence in `Attached` or
`ScriptLoaded`), two consecutive `load_script` calls succeed, the two
returned script ids differ, and afterwards the session carries exactly the
one script of the second call. -/
theorem c3_load_script_twice (s : Service) (sid : Nat) (src₁ src₂ : String)
    (sess : Session) (h : lookupSession s.sessions sid = some sess) :
    (s.load_script sid src₁).1 = Except.ok s.nextScriptId
    ∧ ((s.load_script sid src₁).2.load_script sid src₂).1
        = Except.ok (s.nextScriptId + 1)
    ∧ s.nextScriptId ≠ s.nextScriptId + 1
    ∧ lookupSession
        ((s.load_script sid src₁).2.load_script sid src₂).2.sessions sid
        = some { sess with state := SessionState.ScriptLoaded, script := some ⟨s.nextScriptId + 1, src₂⟩ } := by
  have h₁ := load_script_ok s sid src₁ sess h
  have hlk : lookupSession (s.load_script sid src₁).2.sessions sid
      = some { sess with state := SessionState.ScriptLoaded, script := some ⟨s.nextScriptId, src₁⟩ } := by
    rw [h₁]
    dsimp only
    rw [lookupSession_updateSession, h]
    rfl
  have hn : (s.load_script sid src₁).2.nextScriptId = s.nextScriptId + 1 := by
    rw [h₁]
  have h₂ := load_script_ok (s.load_script sid src₁).2 sid src₂ _ hlk
  rw [hn] at h₂
  refine ⟨?_, ?_, Nat.ne_of_lt (Nat.lt_succ_self _), ?_⟩
  · rw [h₁]
  · rw [h₂]
  · rw [h₂]
    dsimp only
    rw [lookupSession_updateSession, hlk]
    rfl

/-- Witness for C3 on the attached example session. -/
theorem c3_load_script_twice_witness :
    (svcAttached.load_script 1 "a").1 = Except.ok svcAttached.nextScriptId
    ∧ ((svcAttached.load_script 1 "a").2.load_script 1 "b").1
        = Except.ok (svcAttached.nextScriptId + 1)
    ∧ svcAttached.nextScriptId ≠ svcAttached.nextScriptId + 1
    ∧ lookupSession
        ((svcAttached.load_script 1 "a").2.load_script 1 "b").2.sessions 1
        = some ⟨"local", 1234, SessionState.ScriptLoaded,
                some ⟨svcAttached.nextScriptId + 1, "b"⟩⟩ :=
  c3_load_script_twice svcAttached 1 "a" "b"
    ⟨"local", 1234, SessionState.Attached, none⟩ rfl

/-- C4: `unload_script` on a session that is present but has no script
succeeds and returns the service state identically unchanged. -/
theorem c4_unload_script_noop (s : Service) (sid : Nat) (sess : Session)
    (hmem : lookupSession s.sessions sid = some sess)
    (hnone : sess.script = none) :
    s.unload_script sid = (Except.ok (), s) := by
  simp [Service.unload_script, hmem, hnone]

/-- Witness for C4 on the freshly attached, scriptless example session. -/
theorem c4_unload_script_noop_witness :
    svcAttached.unload_script 1 = (Except.ok (), svcAttached) :=
  c4_unload_script_noop svcAttached 1
    ⟨"local", 1234, SessionState.Attached, none⟩ rfl rfl

/-- C5: session ids come from a monotone counter — a successful `attach`
returns the counter value, and any later successful `attach`, after an
arbitrary sequence of operations, returns a strictly larger id; hence an id
removed by `detach` is never assigned again. -/
theorem c5_session_ids_monotone (s s₁ s₂ : Service) (d d₂ : String)
    (p p₂ sid sid₂ : Nat) (ops : List Op)
    (h₁ : s.attach d p = (Except.ok sid, s₁))
    (h₂ : (s₁.run ops).attach d₂ p₂ = (Except.ok sid₂, s₂)) :
    sid < sid₂ := by
  obtain ⟨e₁, r₁⟩ := attach_ok s s₁ d p sid h₁
  obtain ⟨e₂, _⟩ := attach_ok (s₁.run ops) s₂ d₂ p₂ sid₂ h₂
  subst e₁
  subst e₂
  have hle := run_nextSessionId_le s₁ ops
  have hbump : s₁.nextSessionId = s.nextSessionId + 1 := by rw [r₁]
  omega

/-- Witness for C5: attach, detach the session again, then attach anew —
the second id is strictly larger. -/
theorem c5_session_ids_monotone_witness : (1 : Nat) < 2 :=
  c5_session_ids_monotone svcExample svcAttached
    ((svcAttached.run [Op.detach 1]).attach "local" 1234).2 "local" "local"
    1234 1234 1 2 [Op.detach 1] rfl rfl

